import Mathlib

/-!
Verification of the appointment booking and financial reconciliation workflow
of the Beauty multi-tenant scheduling application.

The embedding below translates the server routes (`registerRoutes` in the
Express routes module), the persistence layer (`DatabaseStorage` in
`server/storage.ts`) and the data model (`shared/schema.ts`) into executable
Lean definitions.  The relational store is modelled as in-memory lists of
rows; database ids handed out by `serial` columns are modelled by explicit
counters.  Dates (`timestamp` columns and JavaScript `Date` values) are
modelled as integers (epoch milliseconds); the computation of dashboard
window boundaries from the server's local calendar clock is not modelled —
the boundaries are passed to the aggregator as parameters, exactly as the
storage layer receives them.

Monetary values flow through the system in two representations, both
modelled exactly:
* `numeric` database columns hold exact decimal values, modelled as `ℚ`;
* route handlers convert them with JavaScript `parseFloat`, sum them with
  JavaScript `+` on IEEE-754 binary64 doubles and re-render them with
  `Number.prototype.toFixed(2)`.  Every finite double is a rational number,
  so double arithmetic is modelled exactly on `ℚ` by rounding every
  operation result to the nearest representable double (ties to even).
  Exponent overflow to infinity (magnitudes at or above 2^1024) and the
  `NaN`/infinity specials are outside the model; every value arising in the
  theorems below is far below that range, and the one division in the code
  always has a non-zero denominator.

The arithmetic inside the model is written with `mkRat`/`Rat.divInt` and
explicit numerator/denominator manipulation rather than the `ℚ` field
operations, because the latter are `@[irreducible]` and would block kernel
evaluation of concrete instances; the `q*_eq` lemmas below prove the two
presentations equal.
-/

namespace Beauty

/-! ### Kernel-evaluable rational arithmetic -/

/-- Addition on `ℚ` via explicit numerators and denominators. -/
def qadd (a b : ℚ) : ℚ := mkRat (a.num * b.den + b.num * a.den) (a.den * b.den)

/-- Subtraction on `ℚ` via explicit numerators and denominators. -/
def qsub (a b : ℚ) : ℚ := mkRat (a.num * b.den - b.num * a.den) (a.den * b.den)

/-- Multiplication on `ℚ` via explicit numerators and denominators. -/
def qmul (a b : ℚ) : ℚ := mkRat (a.num * b.num) (a.den * b.den)

/-- Division on `ℚ` via explicit numerators and denominators. -/
def qdivQ (a b : ℚ) : ℚ := Rat.divInt (a.num * b.den) (a.den * b.num)

/-- Negation on `ℚ` via the explicit numerator. -/
def qneg (a : ℚ) : ℚ := mkRat (-a.num) a.den

theorem qadd_eq (a b : ℚ) : qadd a b = a + b := by
  unfold qadd
  rw [Rat.add_def']

theorem qsub_eq (a b : ℚ) : qsub a b = a - b := by
  unfold qsub
  rw [Rat.sub_def']

theorem qmul_eq (a b : ℚ) : qmul a b = a * b := by
  unfold qmul
  rw [Rat.mkRat_eq_divInt, Int.natCast_mul,
    ← Rat.divInt_mul_divInt' a.num (a.den : ℤ) b.num (b.den : ℤ),
    Rat.num_divInt_den, Rat.num_divInt_den]

theorem qdivQ_eq (a b : ℚ) : qdivQ a b = a / b := by
  unfold qdivQ
  rw [Rat.div_def']

theorem qneg_eq (a : ℚ) : qneg a = -a := by
  unfold qneg
  rw [Rat.mkRat_eq_divInt, Rat.neg_def]

/-! ### Exact model of JavaScript (IEEE-754 binary64) arithmetic -/

/-- Integer power of two as a rational, for arbitrary integer exponent. -/
def pow2 (e : ℤ) : ℚ :=
  if 0 ≤ e then mkRat ((2 ^ e.toNat : ℕ) : ℤ) 1 else mkRat 1 (2 ^ (-e).toNat)

/-- Floor of a rational as an integer (the denominator is positive, so
`Int.fdiv` of numerator by denominator is the floor). -/
def qfloor (q : ℚ) : ℤ := Int.fdiv q.num (q.den : ℤ)

/-- Fuel-driven computation of `⌊log₂ a⌋` for a positive rational `a`.
Structural recursion on the fuel keeps the definition kernel-reducible. -/
def qlog2F : ℚ → ℕ → ℤ
  | _, 0 => 0
  | a, fuel + 1 =>
    if a < 1 then qlog2F (qmul a 2) fuel - 1
    else if a < 2 then 0
    else qlog2F (qdivQ a 2) fuel + 1

/-- Floor of the base-two logarithm of a positive rational.  The fuel 2200
covers the whole double range (exponents from -1074 to 1023) with room to
spare. -/
def qlog2 (a : ℚ) : ℤ := qlog2F a 2200

/-- Round a rational to the nearest integer, ties to even. -/
def roundHalfEven (q : ℚ) : ℤ :=
  let fl := qfloor q
  let r := qsub q (mkRat fl 1)
  if r < mkRat 1 2 then fl
  else if mkRat 1 2 < r then fl + 1
  else if fl % 2 = 0 then fl else fl + 1

/-- Round a rational to the nearest IEEE-754 binary64 double (round to
nearest, ties to even), returning the exact rational value of that double.
Subnormals are handled by clamping the scale exponent at -1074; overflow to
infinity is not modelled (see the module comment). -/
def roundDouble (q : ℚ) : ℚ :=
  if q = 0 then 0
  else
    let a := if q < 0 then qneg q else q
    let e : ℤ := max (qlog2 a - 52) (-1074)
    let m := roundHalfEven (qdivQ a (pow2 e))
    qmul (mkRat (if q < 0 then -m else m) 1) (pow2 e)

/-- JavaScript `+` on doubles: exact sum, rounded to the nearest double. -/
def jsAdd (a b : ℚ) : ℚ := roundDouble (qadd a b)

/-- JavaScript `*` on doubles: exact product, rounded to the nearest double. -/
def jsMul (a b : ℚ) : ℚ := roundDouble (qmul a b)

/-- JavaScript `/` on doubles: exact quotient, rounded to the nearest
double.  Division by zero (which would give an IEEE infinity) is mapped to
zero; it is unreachable in the code under verification because the only
division site substitutes denominator 1 for a zero count. -/
def jsDiv (a b : ℚ) : ℚ := if b = 0 then 0 else roundDouble (qdivQ a b)

/-- JavaScript `Math.round`: nearest integer, ties toward positive
infinity. -/
def jsMathRound (x : ℚ) : ℤ :=
  let fl := qfloor x
  if qsub x (mkRat fl 1) < mkRat 1 2 then fl else fl + 1

/-- JavaScript `Number.prototype.toFixed(2)` applied to the double `x`,
returned as the integer number of cents: the integer `n` minimising
`|n / 100 - x|`, ties resolved to the larger `n` (this is the ECMAScript
definition for arguments below 10^21, which covers every value in this
development). -/
def toFixedCents (x : ℚ) : ℤ := qfloor (qadd (qmul x 100) (mkRat 1 2))

/-- Render a non-negative integer number of cents as the two-decimal string
produced by `toFixed(2)`, e.g. `6540 ↦ "65.40"`. -/
def renderCents (n : ℤ) : String :=
  let whole := n / 100
  let frac := (n % 100).toNat
  toString whole ++ "." ++ (if frac < 10 then "0" ++ toString frac else toString frac)

/-- JavaScript `parseFloat` applied to the decimal string whose exact value
is `q`: the string is converted to the nearest double. -/
def parseFloatQ (q : ℚ) : ℚ := roundDouble q

/-- JavaScript string truthiness as applied by `x || d` where `x` is a
string or `undefined`: `undefined` and the empty string are falsy. -/
def strOrDefault (s : Option String) (d : String) : String :=
  match s with
  | none => d
  | some s => if s = "" then d else s

/-! ### Data model (`shared/schema.ts`)

Rows of the tables relevant to the claims.  Fields not consulted by any of
the verified code paths (password hashes, invite codes, creation
timestamps) are omitted; every field that a handler or storage method reads
or writes is present. -/

/-- Row of the `users` table.  `role` is the string `"admin"` or
`"collaborator"`. -/
structure User where
  id : ℕ
  name : String
  role : String
  companyId : ℕ
deriving DecidableEq, Inhabited

/-- Row of the `clients` table. -/
structure Client where
  id : ℕ
  name : String
  phone : String
  notes : Option String
  companyId : ℕ
deriving DecidableEq, Inhabited

/-- Row of the `procedures` table.  `value` is the exact decimal value of
the `numeric` column. -/
structure Procedure where
  id : ℕ
  name : String
  value : ℚ
  companyId : ℕ
deriving DecidableEq, Inhabited

/-- Row of the `appointments` table.  `procedureId` is the legacy
single-procedure column; `date` is epoch milliseconds; `value` is the exact
decimal value of the `numeric` column. -/
structure Appointment where
  id : ℕ
  clientId : ℕ
  collaboratorId : ℕ
  procedureId : ℕ
  date : ℤ
  status : String
  companyId : ℕ
  value : ℚ
  notes : Option String
deriving DecidableEq, Inhabited

/-- Row of the `appointment_procedures` junction table. -/
structure AppointmentProcedure where
  id : ℕ
  appointmentId : ℕ
  procedureId : ℕ
deriving DecidableEq, Inhabited

/-- Row of the `financial_records` table.  `appointmentId` is a nullable
foreign key. -/
structure FinancialRecord where
  id : ℕ
  type : String
  category : String
  description : String
  value : ℚ
  date : ℤ
  companyId : ℕ
  appointmentId : Option ℕ
deriving DecidableEq, Inhabited

/-- State of the relational store: the table contents plus the next value
of each `serial` id sequence used by the verified workflows. -/
structure DB where
  users : List User
  clients : List Client
  procedures : List Procedure
  appointments : List Appointment
  appointmentProcedures : List AppointmentProcedure
  financialRecords : List FinancialRecord
  nextAppointmentId : ℕ
  nextApId : ℕ
  nextFrId : ℕ
deriving DecidableEq, Inhabited

/-- Payload accepted by `insertAppointmentSchema` after its transforms,
as handed to `DatabaseStorage.createAppointment`/`updateAppointment`.
`status` is `none` when the request body omitted it (the zod schema marks
columns with database defaults optional and does not inject the default);
`value` is the exact decimal value of the value string computed by the
handler. -/
structure InsertAppointment where
  clientId : ℕ
  collaboratorId : ℕ
  procedureId : ℕ
  date : ℤ
  status : Option String
  companyId : ℕ
  value : ℚ
  notes : Option String
deriving DecidableEq, Inhabited

/-- Payload of `insertFinancialRecordSchema` after its transforms. -/
structure InsertFinancialRecord where
  type : String
  category : String
  description : String
  value : ℚ
  date : ℤ
  companyId : ℕ
  appointmentId : Option ℕ
deriving DecidableEq, Inhabited

/-- Partial update for a financial record, as passed to
`updateFinancialRecord`/`updateFinancialRecordByAppointment`; both call
sites in the routes set only `value` and `date`. -/
structure FinancialRecordUpdates where
  value : Option ℚ
  date : Option ℤ
deriving DecidableEq, Inhabited

/-- Apply a drizzle `set` clause with the given partial update. -/
def applyFrUpdates (r : FinancialRecord) (u : FinancialRecordUpdates) : FinancialRecord :=
  { r with value := u.value.getD r.value, date := u.date.getD r.date }

/-! ### Persistence layer (`DatabaseStorage` in `server/storage.ts`)

Each method is a function of the store state.  Methods whose SQL `where`
clause can match nothing and that check `returning()` for emptiness throw
in the source; they are modelled with `Except String`.  Methods that fire
the statement without inspecting the result are total. -/

/-- `getUser`: select by primary key. -/
def getUser (db : DB) (id : ℕ) : Option User :=
  db.users.find? (fun u => u.id == id)

/-- `getClient`: select by primary key. -/
def getClient (db : DB) (id : ℕ) : Option Client :=
  db.clients.find? (fun c => c.id == id)

/-- `getClientsByCompany`: select by company (ordering by name is
irrelevant to the verified properties and not modelled). -/
def getClientsByCompany (db : DB) (companyId : ℕ) : List Client :=
  db.clients.filter (fun c => c.companyId == companyId)

/-- `getProcedure`: select by primary key. -/
def getProcedure (db : DB) (id : ℕ) : Option Procedure :=
  db.procedures.find? (fun p => p.id == id)

/-- `getAppointment`: select by primary key. -/
def getAppointment (db : DB) (id : ℕ) : Option Appointment :=
  db.appointments.find? (fun a => a.id == id)

/-- `getAppointmentsByDateRange`: the source builds a select with the
company-and-window `where`, then, under JavaScript truthiness of the
optional argument (`undefined` and `0` skip it), calls `.where()` a second
time.  Drizzle's non-dynamic builder stores a single condition and the
second call overwrites the first, so when the collaborator restriction
applies it REPLACES the company and date-window restrictions: the query
returns every appointment of that collaborator, of any tenant and date. -/
def getAppointmentsByDateRange (db : DB) (companyId : ℕ) (startDate endDate : ℤ)
    (collaboratorId : Option ℕ) : List Appointment :=
  let base := db.appointments.filter
    (fun a => a.companyId == companyId && startDate ≤ a.date && a.date ≤ endDate)
  match collaboratorId with
  | none => base
  | some c =>
    if c == 0 then base
    else db.appointments.filter (fun a => a.collaboratorId == c)

/-- `createAppointment`: the storage layer re-parses a string `value` with
`parseFloat` before insert, so the persisted `numeric` value is the double
approximation of the handler's decimal string; a missing or empty `status`
falls back to `'scheduled'` via `||`. -/
def createAppointment (db : DB) (appointment : InsertAppointment) : Appointment × DB :=
  let row : Appointment :=
    { id := db.nextAppointmentId
      clientId := appointment.clientId
      collaboratorId := appointment.collaboratorId
      procedureId := appointment.procedureId
      date := appointment.date
      status := strOrDefault appointment.status "scheduled"
      companyId := appointment.companyId
      value := parseFloatQ appointment.value
      notes := appointment.notes }
  (row, { db with appointments := db.appointments ++ [row],
                  nextAppointmentId := db.nextAppointmentId + 1 })

/-- `updateAppointment`: sets every listed column on the row with the given
id (same `status` default and `parseFloat` conversion as on create) and
throws when no row matched. -/
def updateAppointment (db : DB) (id : ℕ) (updates : InsertAppointment) :
    Except String (Appointment × DB) :=
  match getAppointment db id with
  | none => .error ("Appointment with ID " ++ toString id ++ " not found")
  | some _ =>
    let row : Appointment :=
      { id := id
        clientId := updates.clientId
        collaboratorId := updates.collaboratorId
        procedureId := updates.procedureId
        date := updates.date
        status := strOrDefault updates.status "scheduled"
        companyId := updates.companyId
        value := parseFloatQ updates.value
        notes := updates.notes }
    .ok (row, { db with
      appointments := db.appointments.map (fun a => if a.id == id then row else a) })

/-- `removeAllProceduresFromAppointment`: unconditional delete of every
junction row of the appointment. -/
def removeAllProceduresFromAppointment (db : DB) (appointmentId : ℕ) : DB :=
  { db with appointmentProcedures :=
      db.appointmentProcedures.filter (fun ap => ap.appointmentId != appointmentId) }

/-- `deleteAppointment`: first removes the junction rows, then deletes the
appointment row, throwing when the row is absent. -/
def deleteAppointment (db : DB) (id : ℕ) : Except String DB :=
  let db1 := removeAllProceduresFromAppointment db id
  match getAppointment db1 id with
  | none => .error ("Appointment with ID " ++ toString id ++ " not found")
  | some _ =>
    .ok { db1 with appointments := db1.appointments.filter (fun a => a.id != id) }

/-- `getAppointmentProcedures`: inner join of the junction rows with the
procedures table. -/
def getAppointmentProcedures (db : DB) (appointmentId : ℕ) : List Procedure :=
  (db.appointmentProcedures.filter (fun ap => ap.appointmentId == appointmentId)).filterMap
    (fun ap => getProcedure db ap.procedureId)

/-- `addProcedureToAppointment`: insert one junction row. -/
def addProcedureToAppointment (db : DB) (appointmentId procedureId : ℕ) :
    AppointmentProcedure × DB :=
  let row : AppointmentProcedure :=
    { id := db.nextApId, appointmentId := appointmentId, procedureId := procedureId }
  (row, { db with appointmentProcedures := db.appointmentProcedures ++ [row],
                  nextApId := db.nextApId + 1 })

/-- `getFinancialRecordsByDateRange`: same double-`.where()` pattern as
`getAppointmentsByDateRange`.  Under JavaScript truthiness of the optional
type argument (`undefined` and `""` skip it) the second `.where()` call
overwrites the company-and-window condition, so the query returns every
record of that type, of any tenant and date. -/
def getFinancialRecordsByDateRange (db : DB) (companyId : ℕ) (startDate endDate : ℤ)
    (type : Option String) : List FinancialRecord :=
  let base := db.financialRecords.filter
    (fun r => r.companyId == companyId && startDate ≤ r.date && r.date ≤ endDate)
  match type with
  | none => base
  | some t =>
    if t == "" then base
    else db.financialRecords.filter (fun r => r.type == t)

/-- `createFinancialRecord`: insert one row. -/
def createFinancialRecord (db : DB) (record : InsertFinancialRecord) :
    FinancialRecord × DB :=
  let row : FinancialRecord :=
    { id := db.nextFrId
      type := record.type
      category := record.category
      description := record.description
      value := record.value
      date := record.date
      companyId := record.companyId
      appointmentId := record.appointmentId }
  (row, { db with financialRecords := db.financialRecords ++ [row],
                  nextFrId := db.nextFrId + 1 })

/-- `updateFinancialRecord` (by primary key): throws when the row is
absent. -/
def updateFinancialRecord (db : DB) (id : ℕ) (updates : FinancialRecordUpdates) :
    Except String (FinancialRecord × DB) :=
  match db.financialRecords.find? (fun r => r.id == id) with
  | none => .error ("Financial record with ID " ++ toString id ++ " not found")
  | some r =>
    let row := applyFrUpdates r updates
    .ok (row, { db with
      financialRecords := db.financialRecords.map (fun s => if s.id == id then row else s) })

/-- `deleteFinancialRecord` (by primary key): throws when the row is
absent. -/
def deleteFinancialRecord (db : DB) (id : ℕ) : Except String DB :=
  match db.financialRecords.find? (fun r => r.id == id) with
  | none => .error ("Financial record with ID " ++ toString id ++ " not found")
  | some _ =>
    .ok { db with financialRecords := db.financialRecords.filter (fun r => r.id != id) }

/-- `updateFinancialRecordByAppointment`: fire-and-forget update of every
record whose `appointmentId` column equals the given id (SQL `=` never
matches `NULL`); no emptiness check, hence no failure path. -/
def updateFinancialRecordByAppointment (db : DB) (appointmentId : ℕ)
    (updates : FinancialRecordUpdates) : DB :=
  { db with financialRecords := db.financialRecords.map (fun r =>
      if r.appointmentId == some appointmentId then applyFrUpdates r updates else r) }

/-- `deleteFinancialRecordByAppointment`: fire-and-forget delete of every
record whose `appointmentId` column equals the given id; no emptiness
check, hence no failure path. -/
def deleteFinancialRecordByAppointment (db : DB) (appointmentId : ℕ) : DB :=
  { db with financialRecords :=
      db.financialRecords.filter (fun r => r.appointmentId != some appointmentId) }

/-- Payload of `insertClientSchema` (the handler always overwrites
`companyId` with the session's company before parsing). -/
structure InsertClient where
  name : String
  phone : String
  notes : Option String
  companyId : ℕ
deriving DecidableEq, Inhabited

/-- `updateClient`: sets every listed column, throws when absent. -/
def updateClient (db : DB) (id : ℕ) (updates : InsertClient) :
    Except String (Client × DB) :=
  match getClient db id with
  | none => .error ("Client with ID " ++ toString id ++ " not found")
  | some _ =>
    let row : Client := { id := id, name := updates.name, phone := updates.phone,
                          notes := updates.notes, companyId := updates.companyId }
    .ok (row, { db with
      clients := db.clients.map (fun c => if c.id == id then row else c) })

/-- `deleteClient`: throws when absent. -/
def deleteClient (db : DB) (id : ℕ) : Except String DB :=
  match getClient db id with
  | none => .error ("Client with ID " ++ toString id ++ " not found")
  | some _ => .ok { db with clients := db.clients.filter (fun c => c.id != id) }

/-- Payload of `insertProcedureSchema` after its transforms. -/
structure InsertProcedure where
  name : String
  value : ℚ
  companyId : ℕ
deriving DecidableEq, Inhabited

/-- `updateProcedure`: sets every listed column, throws when absent. -/
def updateProcedure (db : DB) (id : ℕ) (updates : InsertProcedure) :
    Except String (Procedure × DB) :=
  match getProcedure db id with
  | none => .error ("Procedure with ID " ++ toString id ++ " not found")
  | some _ =>
    let row : Procedure := { id := id, name := updates.name, value := updates.value,
                             companyId := updates.companyId }
    .ok (row, { db with
      procedures := db.procedures.map (fun p => if p.id == id then row else p) })

/-- `deleteProcedure`: throws when absent. -/
def deleteProcedure (db : DB) (id : ℕ) : Except String DB :=
  match getProcedure db id with
  | none => .error ("Procedure with ID " ++ toString id ++ " not found")
  | some _ => .ok { db with procedures := db.procedures.filter (fun p => p.id != id) }

/-! ### Route handlers (`registerRoutes` in the Express routes module)

Handlers are modelled as functions from the session user, the request data
and the store state to an HTTP outcome (and the new store state, for
writing handlers).  The authentication middleware (`isAuthenticated` /
`isAdmin`) runs before every handler and is outside the verified
workflow: the modelled functions describe the behaviour for a request that
reached the handler body.  Zod parsing of an already well-typed body never
throws (its only failure mode is a malformed date string, which the `ℤ`
date model has no counterpart for). -/

/-- Outcome of a request: an HTTP success with a typed payload, or an HTTP
error carrying only a message. -/
inductive ApiResult (α : Type) where
  | ok (status : ℕ) (payload : α)
  | err (status : ℕ) (message : String)
deriving DecidableEq

/-- HTTP status code of an outcome. -/
def ApiResult.statusOf : ApiResult α → ℕ
  | .ok s _ => s
  | .err s _ => s

/-- Payload of an outcome, when it is a success. -/
def ApiResult.payload? : ApiResult α → Option α
  | .ok _ p => some p
  | .err _ _ => none

/-- Body of a create/update appointment request, already decoded from
JSON: the `procedureIds` array plus the `restData` fields the handler
forwards. -/
structure AppointmentRequestBody where
  procedureIds : List ℕ
  clientId : ℕ
  collaboratorId : ℕ
  date : ℤ
  status : Option String
  notes : Option String
deriving DecidableEq, Inhabited

/-- The procedure-validation loop shared by the create and update
handlers: each id is fetched and must exist and belong to the session's
company; the first failure aborts. -/
def resolveProcedures (db : DB) (companyId : ℕ) : List ℕ → Option (List Procedure)
  | [] => some []
  | pid :: rest =>
    match getProcedure db pid with
    | none => none
    | some p =>
      if p.companyId == companyId then
        (resolveProcedures db companyId rest).map (fun ps => p :: ps)
      else none

/-- The running total of the same loop:
`totalValue += parseFloat(procedure.value)` on doubles, starting from 0. -/
def jsSumValues (ps : List Procedure) : ℚ :=
  ps.foldl (fun acc p => jsAdd acc (parseFloatQ p.value)) 0

/-- Exact decimal value of the integer-cents amount `n`. -/
def centsToQ (n : ℤ) : ℚ := mkRat n 100

/-- `POST /api/appointments`: validates the procedure list, sums prices on
doubles, renders the total with `toFixed(2)`, persists the appointment (the
legacy `procedureId` column gets the first resolved procedure), one
junction row per procedure, and the mirrored income financial record.
`clientId` and `collaboratorId` are forwarded without any tenancy check. -/
def postApiAppointments (db : DB) (user : User) (body : AppointmentRequestBody) :
    ApiResult Appointment × DB :=
  let companyId := user.companyId
  if body.procedureIds.isEmpty then
    (.err 400 "Pelo menos um procedimento é obrigatório", db)
  else
    match resolveProcedures db companyId body.procedureIds with
    | none => (.err 400 "Procedimento inválido ou não pertence à sua empresa", db)
    | some validProcedures =>
      let totalValue := jsSumValues validProcedures
      let ins : InsertAppointment :=
        { clientId := body.clientId
          collaboratorId := body.collaboratorId
          procedureId := (validProcedures.headD default).id
          date := body.date
          status := body.status
          companyId := companyId
          value := centsToQ (toFixedCents totalValue)
          notes := body.notes }
      let (appointment, db1) := createAppointment db ins
      let db2 := validProcedures.foldl
        (fun s p => (addProcedureToAppointment s appointment.id p.id).2) db1
      let (_, db3) := createFinancialRecord db2
        { type := "income"
          category := "appointment"
          description := "Agendamento #" ++ toString appointment.id
          value := appointment.value
          date := appointment.date
          companyId := companyId
          appointmentId := some appointment.id }
      (.ok 201 appointment, db3)

/-- `PUT /api/appointments/:id`: tenancy check on the existing row, then
procedure validation, full update of the appointment columns, full
replacement of the junction rows, and — exactly when the new status is
`completed` and the previous one was not — a resync of the mirrored
financial record to the new value and the current clock (`new Date()`),
not the appointment date.  Responds with the re-fetched row. -/
def putApiAppointmentsId (db : DB) (user : User) (appointmentId : ℕ)
    (body : AppointmentRequestBody) (now : ℤ) : ApiResult (Option Appointment) × DB :=
  match getAppointment db appointmentId with
  | none => (.err 404 "Agendamento não encontrado", db)
  | some existingAppointment =>
    if existingAppointment.companyId ≠ user.companyId then
      (.err 403 "Acesso negado", db)
    else if body.procedureIds.isEmpty then
      (.err 400 "Pelo menos um procedimento é obrigatório", db)
    else
      match resolveProcedures db user.companyId body.procedureIds with
      | none => (.err 400 "Procedimento inválido ou não pertence à sua empresa", db)
      | some validProcedures =>
        let totalValue := jsSumValues validProcedures
        let ins : InsertAppointment :=
          { clientId := body.clientId
            collaboratorId := body.collaboratorId
            procedureId := (validProcedures.headD default).id
            date := body.date
            status := body.status
            companyId := user.companyId
            value := centsToQ (toFixedCents totalValue)
            notes := body.notes }
        match updateAppointment db appointmentId ins with
        | .error e => (.err 500 e, db)
        | .ok (updatedAppointment, db1) =>
          let db2 := removeAllProceduresFromAppointment db1 appointmentId
          let db3 := validProcedures.foldl
            (fun s p => (addProcedureToAppointment s appointmentId p.id).2) db2
          let db4 :=
            if updatedAppointment.status == "completed"
                && existingAppointment.status != "completed" then
              updateFinancialRecordByAppointment db3 appointmentId
                { value := some updatedAppointment.value, date := some now }
            else db3
          (.ok 200 (getAppointment db4 appointmentId), db4)

/-- `DELETE /api/appointments/:id`: tenancy check, then the associated
financial record is deleted first, then `deleteAppointment` removes the
junction rows and finally the appointment row. -/
def deleteApiAppointmentsId (db : DB) (user : User) (appointmentId : ℕ) :
    ApiResult Unit × DB :=
  match getAppointment db appointmentId with
  | none => (.err 404 "Agendamento não encontrado", db)
  | some existingAppointment =>
    if existingAppointment.companyId ≠ user.companyId then
      (.err 403 "Acesso negado", db)
    else
      let db1 := deleteFinancialRecordByAppointment db appointmentId
      match deleteAppointment db1 appointmentId with
      | .ok db2 => (.ok 204 (), db2)
      | .error e => (.err 500 e, db1)

/-- `GET /api/appointments/:id/procedures`: tenancy check, then the joined
procedure list.  Pure read. -/
def getApiAppointmentsIdProcedures (db : DB) (user : User) (appointmentId : ℕ) :
    ApiResult (List Procedure) :=
  match getAppointment db appointmentId with
  | none => .err 404 "Appointment not found"
  | some existingAppointment =>
    if existingAppointment.companyId ≠ user.companyId then
      .err 403 "Access denied"
    else
      .ok 200 (getAppointmentProcedures db appointmentId)

/-- `GET /api/clients/:id`: tenancy check, then the row.  Pure read. -/
def getApiClientsId (db : DB) (user : User) (clientId : ℕ) : ApiResult Client :=
  match getClient db clientId with
  | none => .err 404 "Client not found"
  | some client =>
    if client.companyId ≠ user.companyId then .err 403 "Access denied"
    else .ok 200 client

/-- `PUT /api/clients/:id`: tenancy check on the existing row, then the
update (with `companyId` forced to the session's company). -/
def putApiClientsId (db : DB) (user : User) (clientId : ℕ)
    (body : InsertClient) : ApiResult Client × DB :=
  match getClient db clientId with
  | none => (.err 404 "Client not found", db)
  | some existingClient =>
    if existingClient.companyId ≠ user.companyId then (.err 403 "Access denied", db)
    else
      match updateClient db clientId { body with companyId := user.companyId } with
      | .ok (client, db1) => (.ok 200 client, db1)
      | .error _ => (.err 500 "Server error", db)

/-- `DELETE /api/clients/:id` (admin-gated upstream): tenancy check, then
the delete. -/
def deleteApiClientsId (db : DB) (user : User) (clientId : ℕ) : ApiResult Unit × DB :=
  match getClient db clientId with
  | none => (.err 404 "Client not found", db)
  | some existingClient =>
    if existingClient.companyId ≠ user.companyId then (.err 403 "Access denied", db)
    else
      match deleteClient db clientId with
      | .ok db1 => (.ok 204 (), db1)
      | .error _ => (.err 500 "Server error", db)

/-- `PUT /api/procedures/:id` (admin-gated upstream): tenancy check on the
existing row, then the update. -/
def putApiProceduresId (db : DB) (user : User) (procedureId : ℕ)
    (body : InsertProcedure) : ApiResult Procedure × DB :=
  match getProcedure db procedureId with
  | none => (.err 404 "Procedure not found", db)
  | some existingProcedure =>
    if existingProcedure.companyId ≠ user.companyId then (.err 403 "Access denied", db)
    else
      match updateProcedure db procedureId { body with companyId := user.companyId } with
      | .ok (procedure, db1) => (.ok 200 procedure, db1)
      | .error _ => (.err 500 "Server error", db)

/-- `DELETE /api/procedures/:id` (admin-gated upstream): tenancy check,
then the delete. -/
def deleteApiProceduresId (db : DB) (user : User) (procedureId : ℕ) :
    ApiResult Unit × DB :=
  match getProcedure db procedureId with
  | none => (.err 404 "Procedure not found", db)
  | some existingProcedure =>
    if existingProcedure.companyId ≠ user.companyId then (.err 403 "Access denied", db)
    else
      match deleteProcedure db procedureId with
      | .ok db1 => (.ok 204 (), db1)
      | .error _ => (.err 500 "Server error", db)

/-! ### Dashboard aggregator (`GET /api/dashboard/stats`) -/

/-- Flat summary returned by the dashboard stats endpoint. -/
structure DashboardStats where
  appointments : ℕ
  clients : ℕ
  revenue : ℚ
  occupation : ℤ
  clientsServed : ℕ
  weeklyAppointments : ℕ
deriving DecidableEq, Inhabited

/-- Count of appointments with `status === 'completed'`. -/
def countCompleted (l : List Appointment) : ℕ :=
  (l.filter (fun a => a.status == "completed")).length

/-- `reduce((sum, record) => sum + Number(record.value), 0)` on doubles. -/
def jsSumRecordValues (rs : List FinancialRecord) : ℚ :=
  rs.foldl (fun sum r => jsAdd sum (roundDouble r.value)) 0

/-- Nat as the exactly-converted double it becomes in JavaScript. -/
def qofNat (n : ℕ) : ℚ := mkRat (Int.ofNat n) 1

/-- `Math.round((completed / (total || 1)) * 100)` on doubles: the
occupation rate with a denominator of 1 substituted when the appointment
count is zero. -/
def occupationOf (completed total : ℕ) : ℤ :=
  jsMathRound (jsMul (jsDiv (qofNat completed) (qofNat (if total == 0 then 1 else total))) 100)

/-- `GET /api/dashboard/stats`: window boundaries (already derived from the
`timeFilter` and the local clock upstream) come in as parameters.  For
non-admins the appointment queries pass the requester as collaborator —
which, through the storage layer's overwritten where-clause, replaces the
company-and-window restriction; the income query (type always `"income"`,
likewise overwritten) and its summation run only for admins.  Pure read. -/
def getApiDashboardStats (db : DB) (user : User)
    (startDate endDate nextWeekStart nextWeekEnd : ℤ) : DashboardStats :=
  let admin := user.role == "admin"
  let appointments := getAppointmentsByDateRange db user.companyId startDate endDate
    (if !admin then some user.id else none)
  let clients := getClientsByCompany db user.companyId
  let revenue :=
    if admin then
      jsSumRecordValues
        (getFinancialRecordsByDateRange db user.companyId startDate endDate (some "income"))
    else 0
  let occupationRate := occupationOf (countCompleted appointments) appointments.length
  let clientsServed := countCompleted appointments
  let upcomingAppointments := getAppointmentsByDateRange db user.companyId
    nextWeekStart nextWeekEnd (if !admin then some user.id else none)
  { appointments := appointments.length
    clients := clients.length
    revenue := revenue
    occupation := occupationRate
    clientsServed := clientsServed
    weeklyAppointments := upcomingAppointments.length }

/-! ### Specification-side definitions

Definitions written from the specification's words, to be compared with
the behaviour of the code-derived definitions above. -/

/-- Exact decimal sum of a list of procedures' prices, as the
specification demands for the appointment value (decimal summation, no
floating-point involvement). -/
def exactSum (ps : List Procedure) : ℚ := (ps.map Procedure.value).sum

/-! ### Shared concrete fixtures -/

/-- Procedure priced 19.90 in tenant 1. -/
def corte : Procedure := { id := 1, name := "Corte", value := mkRat 199 10, companyId := 1 }

/-- Procedure priced 35.50 in tenant 1. -/
def hidratacao : Procedure :=
  { id := 2, name := "Hidratação", value := mkRat 71 2, companyId := 1 }

/-- Procedure priced 10.00 in tenant 1. -/
def barba : Procedure := { id := 3, name := "Barba", value := 10, companyId := 1 }

/-- Procedure priced 9007199254740993.00 (2^53 + 1 monetary units, a valid
unbounded `numeric` value) in tenant 1. -/
def megaProcedure : Procedure :=
  { id := 4, name := "Mega", value := 9007199254740993, companyId := 1 }

/-- Admin of tenant 1. -/
def adminUser : User := { id := 1, name := "Alice", role := "admin", companyId := 1 }

/-- Collaborator of tenant 1. -/
def collabUser : User := { id := 2, name := "Bruna", role := "collaborator", companyId := 1 }

/-- Client of tenant 1. -/
def clientMaria : Client :=
  { id := 1, name := "Maria", phone := "555", notes := none, companyId := 1 }

/-- Client of tenant 2 (the other tenant). -/
def clientOther : Client :=
  { id := 2, name := "Otto", phone := "556", notes := none, companyId := 2 }

/-- Base store state: tenant 1 with its staff, client and procedures, and
one foreign client belonging to tenant 2. -/
def baseDB : DB :=
  { users := [adminUser, collabUser]
    clients := [clientMaria, clientOther]
    procedures := [corte, hidratacao, barba, megaProcedure]
    appointments := []
    appointmentProcedures := []
    financialRecords := []
    nextAppointmentId := 1
    nextApId := 1
    nextFrId := 1 }

/-- Create request for the specification's example prices
19.90 + 35.50 + 10.00. -/
def exampleBody : AppointmentRequestBody :=
  { procedureIds := [1, 2, 3], clientId := 1, collaboratorId := 2,
    date := 1700000000000, status := none, notes := none }

/-- Create request for the single huge-priced procedure. -/
def megaBody : AppointmentRequestBody :=
  { procedureIds := [4], clientId := 1, collaboratorId := 2,
    date := 1700000000000, status := none, notes := none }

/-! ### C1 — appointment value versus the exact decimal sum of prices -/

set_option maxRecDepth 20000 in
/-- C1 counterexample: the claim that creation always yields the exact
decimal sum fails.  With the single procedure priced 9007199254740993.00
the create succeeds (HTTP 201) but persists value 9007199254740992 — the
handler sums prices with `parseFloat` on IEEE-754 doubles, and 2^53 + 1 is
not representable — while the exact decimal sum is 9007199254740993. -/
theorem c1_value_drift_counterexample :
    (postApiAppointments baseDB adminUser megaBody).1.statusOf = 201 ∧
    ((postApiAppointments baseDB adminUser megaBody).1.payload?.map Appointment.value)
      = some 9007199254740992 ∧
    exactSum [megaProcedure] = 9007199254740993 ∧
    ((postApiAppointments baseDB adminUser megaBody).1.payload?.map Appointment.value)
      ≠ some (exactSum [megaProcedure]) := by
  have hexact : exactSum [megaProcedure] = 9007199254740993 := by
    simp [exactSum, megaProcedure]
  refine ⟨by decide, by decide, hexact, ?_⟩
  rw [hexact]
  decide

/-- The value stored by a successful create: `parseFloat` of the
`toFixed(2)` rendering of the double sum of the resolved prices. -/
def floatPipelineValue (db : DB) (companyId : ℕ) (procedureIds : List ℕ) : ℚ :=
  parseFloatQ (centsToQ (toFixedCents (jsSumValues
    ((resolveProcedures db companyId procedureIds).getD []))))

set_option maxRecDepth 20000 in
/-- C1 amended: every successful create persists the `parseFloat` of the
`toFixed(2)` rendering of the IEEE-754 double sum of the resolved
procedures' prices — not the exact decimal sum in general.  For the
specification's example prices 19.90 + 35.50 + 10.00 the two agree: the
handler's value string is "65.40", which is also the rendering of the
exact decimal sum 65.40. -/
theorem c1_value_is_float_sum :
    (∀ (db : DB) (u : User) (b : AppointmentRequestBody) (ps : List Procedure),
      b.procedureIds.isEmpty = false →
      resolveProcedures db u.companyId b.procedureIds = some ps →
      (postApiAppointments db u b).1.statusOf = 201 ∧
      (postApiAppointments db u b).1.payload?.map Appointment.value
        = some (parseFloatQ (centsToQ (toFixedCents (jsSumValues ps))))) ∧
    toFixedCents (jsSumValues [corte, hidratacao, barba]) = 6540 ∧
    renderCents 6540 = "65.40" ∧
    exactSum [corte, hidratacao, barba] = centsToQ 6540 := by
  refine ⟨?_, by decide, by decide, ?_⟩
  · intro db u b ps h1 h2
    unfold postApiAppointments
    simp only [h1, h2]
    exact ⟨rfl, rfl⟩
  · show (mkRat 199 10) + ((mkRat 71 2) + (10 + 0)) = centsToQ 6540
    norm_num [centsToQ, Rat.mkRat_eq_divInt, Rat.divInt_eq_div]

set_option maxRecDepth 20000 in
/-- C1 witness: the amended theorem applied to the example create request
with prices 19.90, 35.50, 10.00. -/
theorem c1_value_is_float_sum_witness :
    exampleBody.procedureIds.isEmpty = false ∧
    resolveProcedures baseDB adminUser.companyId exampleBody.procedureIds
      = some [corte, hidratacao, barba] ∧
    (postApiAppointments baseDB adminUser exampleBody).1.statusOf = 201 ∧
    (postApiAppointments baseDB adminUser exampleBody).1.payload?.map Appointment.value
      = some (parseFloatQ (centsToQ (toFixedCents (jsSumValues [corte, hidratacao, barba])))) :=
  ⟨by decide, by decide,
    c1_value_is_float_sum.1 baseDB adminUser exampleBody [corte, hidratacao, barba]
      (by decide) (by decide)⟩

/-! ### C2 — missing tenancy validation of clientId/collaboratorId -/

/-- Create request naming tenant 2's client (id 2) while the session user
belongs to tenant 1; the procedure is a valid tenant-1 procedure. -/
def crossTenantBody : AppointmentRequestBody :=
  { procedureIds := [1], clientId := 2, collaboratorId := 2,
    date := 1700000000000, status := none, notes := none }

set_option maxRecDepth 20000 in
/-- C2: the create handler never checks that `clientId` belongs to the
caller's tenant.  With tenant 2's client id the create succeeds with HTTP
201 and persists the appointment row (with the foreign `clientId`), its
junction row and its financial record — the claimed `InvalidReference`
failure does not happen and rows are persisted. -/
theorem c2_cross_tenant_client_accepted :
    adminUser.companyId = 1 ∧
    getClient baseDB 2 = some clientOther ∧
    clientOther.companyId = 2 ∧
    (postApiAppointments baseDB adminUser crossTenantBody).1.statusOf = 201 ∧
    ((postApiAppointments baseDB adminUser crossTenantBody).2.appointments.map
      Appointment.clientId) = [2] ∧
    (postApiAppointments baseDB adminUser crossTenantBody).2.appointmentProcedures.length = 1 ∧
    ((postApiAppointments baseDB adminUser crossTenantBody).2.financialRecords.map
      FinancialRecord.appointmentId) = [some 1] := by
  refine ⟨rfl, by decide, rfl, by decide, by decide, by decide, by decide⟩

/-! ### Helper lemmas about the storage layer -/

/-- The procedure-insertion loop leaves the `financial_records` table
untouched. -/
theorem addProcFold_financialRecords (ps : List Procedure) (s : DB) (aid : ℕ) :
    (ps.foldl (fun s p => (addProcedureToAppointment s aid p.id).2) s).financialRecords
      = s.financialRecords := by
  induction ps generalizing s with
  | nil => rfl
  | cons p ps ih =>
    rw [List.foldl_cons, ih]
    rfl

/-- The procedure-insertion loop leaves the `appointments` table
untouched. -/
theorem addProcFold_appointments (ps : List Procedure) (s : DB) (aid : ℕ) :
    (ps.foldl (fun s p => (addProcedureToAppointment s aid p.id).2) s).appointments
      = s.appointments := by
  induction ps generalizing s with
  | nil => rfl
  | cons p ps ih =>
    rw [List.foldl_cons, ih]
    rfl

/-- The procedure-insertion loop appends one junction row per procedure,
in order, all for the given appointment. -/
theorem addProcFold_appointmentProcedures (ps : List Procedure) (s : DB) (aid : ℕ) :
    ((ps.foldl (fun s p => (addProcedureToAppointment s aid p.id).2) s).appointmentProcedures.map
      (fun ap => (ap.appointmentId, ap.procedureId)))
      = s.appointmentProcedures.map (fun ap => (ap.appointmentId, ap.procedureId))
        ++ ps.map (fun p => (aid, p.id)) := by
  induction ps generalizing s with
  | nil => simp
  | cons p ps ih =>
    rw [List.foldl_cons, ih]
    simp [addProcedureToAppointment]

/-- Replacing the row with the given id rewrites what a primary-key lookup
finds. -/
theorem find?_map_replace (l : List Appointment) (id : ℕ) (row : Appointment)
    (hrow : row.id = id) (a : Appointment) (h : l.find? (fun x => x.id == id) = some a) :
    (l.map (fun x => if x.id == id then row else x)).find? (fun x => x.id == id) = some row := by
  induction l with
  | nil => simp at h
  | cons x l ih =>
    by_cases hx : x.id = id
    · simp [hx, hrow]
    · rw [List.find?_cons_of_neg _ (by simp [hx])] at h
      simpa [hx, List.find?_cons_of_neg, ih h] using ih h

/-- A primary-key lookup after deleting that key finds nothing. -/
theorem find?_filter_ne (l : List Appointment) (id : ℕ) :
    (l.filter (fun x => x.id != id)).find? (fun x => x.id == id) = none := by
  rw [List.find?_eq_none]
  intro x hx
  have := (List.mem_filter.mp hx).2
  simpa using this

/-- The appointment row written by a successful update: every column set
from the request, with the status default and the `parseFloat` round-trip
of the computed value string. -/
def putUpdatedRow (u : User) (id : ℕ) (body : AppointmentRequestBody)
    (ps : List Procedure) : Appointment :=
  { id := id
    clientId := body.clientId
    collaboratorId := body.collaboratorId
    procedureId := (ps.headD default).id
    date := body.date
    status := strOrDefault body.status "scheduled"
    companyId := u.companyId
    value := parseFloatQ (centsToQ (toFixedCents (jsSumValues ps)))
    notes := body.notes }

/-- The store state after the row update and the junction-row replacement
of a successful update, before the conditional financial resync. -/
def putBaseState (db : DB) (u : User) (id : ℕ) (body : AppointmentRequestBody)
    (ps : List Procedure) : DB :=
  let row := putUpdatedRow u id body ps
  let db1 : DB :=
    { db with appointments := db.appointments.map (fun x => if x.id == id then row else x) }
  let db2 : DB := removeAllProceduresFromAppointment db1 id
  ps.foldl (fun s p => (addProcedureToAppointment s id p.id).2) db2

/-- The store state after a successful update, including the conditional
financial-record resync. -/
def putFinalState (db : DB) (u : User) (id : ℕ) (body : AppointmentRequestBody)
    (now : ℤ) (a : Appointment) (ps : List Procedure) : DB :=
  if (putUpdatedRow u id body ps).status == "completed" && a.status != "completed" then
    updateFinancialRecordByAppointment (putBaseState db u id body ps) id
      { value := some (putUpdatedRow u id body ps).value, date := some now }
  else putBaseState db u id body ps

/-- Success-path unfolding of the update handler: with an existing
same-tenant appointment, a non-empty procedure list and successful
resolution, the handler performs the full update pipeline and responds
with the re-fetched row. -/
theorem putApiAppointmentsId_success (db : DB) (u : User) (id : ℕ)
    (body : AppointmentRequestBody) (now : ℤ) (a : Appointment) (ps : List Procedure)
    (hget : getAppointment db id = some a)
    (hco : a.companyId = u.companyId)
    (hne : body.procedureIds.isEmpty = false)
    (hres : resolveProcedures db u.companyId body.procedureIds = some ps) :
    putApiAppointmentsId db u id body now =
      (ApiResult.ok 200 (getAppointment (putFinalState db u id body now a ps) id),
        putFinalState db u id body now a ps) := by
  unfold putApiAppointmentsId putFinalState putBaseState putUpdatedRow
  simp only [hget, hco, hne, hres, updateAppointment, Bool.false_eq_true, if_false,
    ne_eq, not_true_eq_false, reduceIte]

/-- The `appointments` table of the base state: the single row replaced in
place. -/
theorem putBaseState_appointments (db : DB) (u : User) (id : ℕ)
    (body : AppointmentRequestBody) (ps : List Procedure) :
    (putBaseState db u id body ps).appointments
      = db.appointments.map (fun x => if x.id == id then putUpdatedRow u id body ps else x) :=
  (addProcFold_appointments _ _ _).trans rfl

/-- The `financial_records` table of the base state is untouched. -/
theorem putBaseState_financialRecords (db : DB) (u : User) (id : ℕ)
    (body : AppointmentRequestBody) (ps : List Procedure) :
    (putBaseState db u id body ps).financialRecords = db.financialRecords :=
  (addProcFold_financialRecords _ _ _).trans rfl

/-- The junction rows of the base state, as (appointmentId, procedureId)
pairs: old rows of this appointment removed, one fresh row per resolved
procedure appended. -/
theorem putBaseState_appointmentProcedures (db : DB) (u : User) (id : ℕ)
    (body : AppointmentRequestBody) (ps : List Procedure) :
    ((putBaseState db u id body ps).appointmentProcedures.map
        (fun ap => (ap.appointmentId, ap.procedureId)))
      = ((db.appointmentProcedures.filter (fun ap => ap.appointmentId != id)).map
          (fun ap => (ap.appointmentId, ap.procedureId)))
        ++ ps.map (fun p => (id, p.id)) :=
  (addProcFold_appointmentProcedures _ _ _).trans rfl

/-- The `appointments` table after a successful update: the conditional
resync does not touch it. -/
theorem putFinalState_appointments (db : DB) (u : User) (id : ℕ)
    (body : AppointmentRequestBody) (now : ℤ) (a : Appointment) (ps : List Procedure) :
    (putFinalState db u id body now a ps).appointments
      = db.appointments.map (fun x => if x.id == id then putUpdatedRow u id body ps else x) := by
  unfold putFinalState
  by_cases hcond : (putUpdatedRow u id body ps).status == "completed" && a.status != "completed"
  · rw [if_pos hcond]
    exact putBaseState_appointments db u id body ps
  · rw [if_neg hcond]
    exact putBaseState_appointments db u id body ps

/-- The junction-row pairs after a successful update: the conditional
resync does not touch them. -/
theorem putFinalState_appointmentProcedures (db : DB) (u : User) (id : ℕ)
    (body : AppointmentRequestBody) (now : ℤ) (a : Appointment) (ps : List Procedure) :
    ((putFinalState db u id body now a ps).appointmentProcedures.map
        (fun ap => (ap.appointmentId, ap.procedureId)))
      = ((db.appointmentProcedures.filter (fun ap => ap.appointmentId != id)).map
          (fun ap => (ap.appointmentId, ap.procedureId)))
        ++ ps.map (fun p => (id, p.id)) := by
  unfold putFinalState
  by_cases hcond : (putUpdatedRow u id body ps).status == "completed" && a.status != "completed"
  · rw [if_pos hcond]
    exact putBaseState_appointmentProcedures db u id body ps
  · rw [if_neg hcond]
    exact putBaseState_appointmentProcedures db u id body ps

/-- The `financial_records` table after a successful update: rewritten
exactly on a transition into completed. -/
theorem putFinalState_financialRecords (db : DB) (u : User) (id : ℕ)
    (body : AppointmentRequestBody) (now : ℤ) (a : Appointment) (ps : List Procedure) :
    (putFinalState db u id body now a ps).financialRecords
      = if (putUpdatedRow u id body ps).status == "completed" && a.status != "completed" then
          db.financialRecords.map (fun r =>
            if r.appointmentId == some id then
              { r with value := (putUpdatedRow u id body ps).value, date := now }
            else r)
        else db.financialRecords := by
  unfold putFinalState
  by_cases hcond : (putUpdatedRow u id body ps).status == "completed" && a.status != "completed"
  · rw [if_pos hcond, if_pos hcond]
    unfold updateFinancialRecordByAppointment
    rw [show ({ putBaseState db u id body ps with
          financialRecords := (putBaseState db u id body ps).financialRecords.map (fun r =>
            if r.appointmentId == some id then
              applyFrUpdates r { value := some (putUpdatedRow u id body ps).value,
                                 date := some now }
            else r) } : DB).financialRecords
        = (putBaseState db u id body ps).financialRecords.map (fun r =>
            if r.appointmentId == some id then
              applyFrUpdates r { value := some (putUpdatedRow u id body ps).value,
                                 date := some now }
            else r) from rfl]
    rw [putBaseState_financialRecords]
    rfl
  · rw [if_neg hcond, if_neg hcond]
    exact putBaseState_financialRecords db u id body ps

/-! ### C3 — cross-tenant access is rejected -/

/-- C3: whenever the entity named by the id exists but belongs to a
different tenant than the session user, every fetch, update and delete
handler responds 403 with a bare message (no entity data) and leaves the
store untouched. -/
theorem c3_cross_tenant_denied (db : DB) (u : User) (id : ℕ) :
    (∀ a, getAppointment db id = some a → a.companyId ≠ u.companyId →
      getApiAppointmentsIdProcedures db u id = ApiResult.err 403 "Access denied" ∧
      (∀ body now, putApiAppointmentsId db u id body now = (ApiResult.err 403 "Acesso negado", db)) ∧
      deleteApiAppointmentsId db u id = (ApiResult.err 403 "Acesso negado", db)) ∧
    (∀ c, getClient db id = some c → c.companyId ≠ u.companyId →
      getApiClientsId db u id = ApiResult.err 403 "Access denied" ∧
      (∀ body, putApiClientsId db u id body = (ApiResult.err 403 "Access denied", db)) ∧
      deleteApiClientsId db u id = (ApiResult.err 403 "Access denied", db)) ∧
    (∀ p, getProcedure db id = some p → p.companyId ≠ u.companyId →
      (∀ body, putApiProceduresId db u id body = (ApiResult.err 403 "Access denied", db)) ∧
      deleteApiProceduresId db u id = (ApiResult.err 403 "Access denied", db)) := by
  refine ⟨?_, ?_, ?_⟩
  · intro a ha hne
    refine ⟨?_, fun body now => ?_, ?_⟩
    · unfold getApiAppointmentsIdProcedures
      simp [ha, hne]
    · unfold putApiAppointmentsId
      simp [ha, hne]
    · unfold deleteApiAppointmentsId
      simp [ha, hne]
  · intro c hc hne
    refine ⟨?_, fun body => ?_, ?_⟩
    · unfold getApiClientsId
      simp [hc, hne]
    · unfold putApiClientsId
      simp [hc, hne]
    · unfold deleteApiClientsId
      simp [hc, hne]
  · intro p hp hne
    refine ⟨fun body => ?_, ?_⟩
    · unfold putApiProceduresId
      simp [hp, hne]
    · unfold deleteApiProceduresId
      simp [hp, hne]

/-- Appointment of tenant 2, used as the foreign target. -/
def foreignAppointment : Appointment :=
  { id := 7, clientId := 2, collaboratorId := 9, procedureId := 9, date := 1700000000000,
    status := "scheduled", companyId := 2, value := 30, notes := none }

/-- Procedure of tenant 2, used as the foreign target. -/
def foreignProcedure : Procedure :=
  { id := 9, name := "Alheio", value := 25, companyId := 2 }

/-- Store state that also holds tenant 2's appointment and procedure. -/
def crossDB : DB :=
  { baseDB with
      appointments := [foreignAppointment]
      procedures := baseDB.procedures ++ [foreignProcedure] }

/-- C3 witness: the theorem applied to tenant 1's admin against tenant 2's
appointment (id 7), client (id 2) and procedure (id 9). -/
theorem c3_cross_tenant_denied_witness :
    getApiAppointmentsIdProcedures crossDB adminUser 7 = ApiResult.err 403 "Access denied" ∧
    putApiAppointmentsId crossDB adminUser 7 exampleBody 0
      = (ApiResult.err 403 "Acesso negado", crossDB) ∧
    deleteApiAppointmentsId crossDB adminUser 7 = (ApiResult.err 403 "Acesso negado", crossDB) ∧
    getApiClientsId crossDB adminUser 2 = ApiResult.err 403 "Access denied" ∧
    deleteApiClientsId crossDB adminUser 2 = (ApiResult.err 403 "Access denied", crossDB) ∧
    deleteApiProceduresId crossDB adminUser 9 = (ApiResult.err 403 "Access denied", crossDB) := by
  have h := c3_cross_tenant_denied crossDB adminUser
  refine ⟨((h 7).1 foreignAppointment (by decide) (by decide)).1,
    ((h 7).1 foreignAppointment (by decide) (by decide)).2.1 exampleBody 0,
    ((h 7).1 foreignAppointment (by decide) (by decide)).2.2,
    ((h 2).2.1 clientOther (by decide) (by decide)).1,
    ((h 2).2.1 clientOther (by decide) (by decide)).2.2,
    ((h 9).2.2 foreignProcedure (by decide) (by decide)).2⟩

/-! ### C4 — financial record resync exactly on transition into completed -/

/-- C4: on a successful appointment update, the financial-records table is
rewritten — every record referencing the appointment gets the new
appointment value and the current clock as its date — exactly when the
effective new status is `completed` and the previous status was not;
otherwise (in particular for a `completed` to `completed` update) the
financial records are untouched. -/
theorem c4_financial_resync_on_completion (db : DB) (u : User) (id : ℕ)
    (body : AppointmentRequestBody) (now : ℤ) (a : Appointment) (ps : List Procedure)
    (hget : getAppointment db id = some a)
    (hco : a.companyId = u.companyId)
    (hne : body.procedureIds.isEmpty = false)
    (hres : resolveProcedures db u.companyId body.procedureIds = some ps) :
    (putApiAppointmentsId db u id body now).2.financialRecords =
      if strOrDefault body.status "scheduled" = "completed" ∧ a.status ≠ "completed" then
        db.financialRecords.map (fun r =>
          if r.appointmentId == some id then
            { r with value := parseFloatQ (centsToQ (toFixedCents (jsSumValues ps))),
                     date := now }
          else r)
      else db.financialRecords := by
  rw [putApiAppointmentsId_success db u id body now a ps hget hco hne hres]
  simp only [putFinalState_financialRecords]
  by_cases h1 : strOrDefault body.status "scheduled" = "completed" <;>
    by_cases h2 : a.status = "completed" <;>
      simp [putUpdatedRow, h1, h2]

/-- Existing scheduled appointment of tenant 1 (id 1). -/
def schedAppointment : Appointment :=
  { id := 1, clientId := 1, collaboratorId := 2, procedureId := 1, date := 1700000000000,
    status := "scheduled", companyId := 1, value := 30, notes := none }

/-- The financial record mirroring appointment 1. -/
def frOfAppointment : FinancialRecord :=
  { id := 1, type := "income", category := "appointment", description := "Agendamento #1",
    value := 30, date := 1700000000000, companyId := 1, appointmentId := some 1 }

/-- Store with the scheduled appointment and its financial record. -/
def schedDB : DB :=
  { baseDB with
      appointments := [schedAppointment]
      appointmentProcedures :=
        [{ id := 1, appointmentId := 1, procedureId := 1 }]
      financialRecords := [frOfAppointment]
      nextAppointmentId := 2
      nextApId := 2
      nextFrId := 2 }

/-- Same store but with appointment 1 already completed. -/
def completedDB : DB :=
  { schedDB with appointments := [{ schedAppointment with status := "completed" }] }

/-- Update request marking the appointment completed, with procedure 1. -/
def completedBody : AppointmentRequestBody :=
  { procedureIds := [1], clientId := 1, collaboratorId := 2,
    date := 1700000000000, status := some "completed", notes := none }

set_option maxRecDepth 20000 in
/-- C4 witness: a scheduled-to-completed update rewrites the financial
record to the new value with the clock date 1800000000000 (not the
appointment date), and a completed-to-completed update leaves the
financial records unchanged. -/
theorem c4_financial_resync_witness :
    (putApiAppointmentsId schedDB adminUser 1 completedBody 1800000000000).2.financialRecords
      = [{ frOfAppointment with
            value := parseFloatQ (centsToQ (toFixedCents (jsSumValues [corte]))),
            date := 1800000000000 }] ∧
    (putApiAppointmentsId completedDB adminUser 1 completedBody 1800000000000).2.financialRecords
      = completedDB.financialRecords := by
  constructor
  · rw [c4_financial_resync_on_completion schedDB adminUser 1 completedBody 1800000000000
      schedAppointment [corte] (by decide) (by decide) (by decide) (by decide)]
    decide
  · rw [c4_financial_resync_on_completion completedDB adminUser 1 completedBody 1800000000000
      { schedAppointment with status := "completed" } [corte]
      (by decide) (by decide) (by decide) (by decide)]
    decide

/-! ### C6 — junction rows fully replaced on update -/

/-- C6: on a successful appointment update, the junction rows for the
appointment are exactly one row per submitted procedure, in order, and the
junction rows of every other appointment are untouched (rows are compared
by their (appointmentId, procedureId) content; the surrogate row ids are
fresh). -/
theorem c6_procedures_fully_replaced (db : DB) (u : User) (id : ℕ)
    (body : AppointmentRequestBody) (now : ℤ) (a : Appointment) (ps : List Procedure)
    (hget : getAppointment db id = some a)
    (hco : a.companyId = u.companyId)
    (hne : body.procedureIds.isEmpty = false)
    (hres : resolveProcedures db u.companyId body.procedureIds = some ps) :
    (((putApiAppointmentsId db u id body now).2.appointmentProcedures.map
        (fun ap => (ap.appointmentId, ap.procedureId))).filter (fun q => q.1 == id))
      = ps.map (fun p => (id, p.id)) ∧
    (((putApiAppointmentsId db u id body now).2.appointmentProcedures.map
        (fun ap => (ap.appointmentId, ap.procedureId))).filter (fun q => q.1 != id))
      = ((db.appointmentProcedures.map (fun ap => (ap.appointmentId, ap.procedureId))).filter
          (fun q => q.1 != id)) := by
  rw [putApiAppointmentsId_success db u id body now a ps hget hco hne hres]
  constructor
  · simp only [putFinalState_appointmentProcedures, List.filter_append, List.filter_map,
      List.filter_filter, Function.comp_def]
    simp [bne]
  · simp only [putFinalState_appointmentProcedures, List.filter_append, List.filter_map,
      List.filter_filter, Function.comp_def]
    simp [bne]

/-- Store where appointment 1 currently links procedures 1 and 2. -/
def twoProcDB : DB :=
  { baseDB with
      appointments := [schedAppointment]
      appointmentProcedures :=
        [{ id := 1, appointmentId := 1, procedureId := 1 },
         { id := 2, appointmentId := 1, procedureId := 2 }]
      financialRecords := [frOfAppointment]
      nextAppointmentId := 2
      nextApId := 3
      nextFrId := 2 }

/-- Update request replacing the procedure list with procedure 3 only. -/
def singleProcBody : AppointmentRequestBody :=
  { procedureIds := [3], clientId := 1, collaboratorId := 2,
    date := 1700000000000, status := none, notes := none }

set_option maxRecDepth 20000 in
/-- C6 witness: updating the procedure list from `{P1, P2}` to `{P3}`
leaves exactly one junction row for the appointment, the one for `P3`. -/
theorem c6_procedures_fully_replaced_witness :
    (((putApiAppointmentsId twoProcDB adminUser 1 singleProcBody 1800000000000).2.appointmentProcedures.map
        (fun ap => (ap.appointmentId, ap.procedureId))).filter (fun q => q.1 == 1))
      = [(1, 3)] ∧
    (putApiAppointmentsId twoProcDB adminUser 1 singleProcBody 1800000000000).2.appointmentProcedures.length
      = 1 := by
  constructor
  · rw [(c6_procedures_fully_replaced twoProcDB adminUser 1 singleProcBody 1800000000000
      schedAppointment [barba] (by decide) (by decide) (by decide) (by decide)).1]
    decide
  · decide

/-! ### C9 — omitted or empty status resets to scheduled -/

/-- C9: on a successful appointment update whose body omits `status` (or
supplies the empty string, which is falsy in JavaScript), the stored status
becomes `"scheduled"` regardless of the previous status — the response body
is the re-fetched row, which shows it. -/
theorem c9_omitted_status_resets (db : DB) (u : User) (id : ℕ)
    (body : AppointmentRequestBody) (now : ℤ) (a : Appointment) (ps : List Procedure)
    (hget : getAppointment db id = some a)
    (hco : a.companyId = u.companyId)
    (hne : body.procedureIds.isEmpty = false)
    (hres : resolveProcedures db u.companyId body.procedureIds = some ps)
    (hstatus : body.status = none ∨ body.status = some "") :
    (getAppointment (putApiAppointmentsId db u id body now).2 id).map Appointment.status
      = some "scheduled" ∧
    (putApiAppointmentsId db u id body now).1.statusOf = 200 := by
  have hdef : strOrDefault body.status "scheduled" = "scheduled" := by
    rcases hstatus with h | h <;> simp [h, strOrDefault]
  rw [putApiAppointmentsId_success db u id body now a ps hget hco hne hres]
  constructor
  · show (getAppointment (putFinalState db u id body now a ps) id).map Appointment.status
      = some "scheduled"
    unfold getAppointment
    rw [putFinalState_appointments,
      find?_map_replace db.appointments id (putUpdatedRow u id body ps) rfl a hget]
    show some (strOrDefault body.status "scheduled") = some "scheduled"
    rw [hdef]
  · rfl

set_option maxRecDepth 20000 in
/-- C9 witness: updating the completed appointment 1 with a body that omits
`status` silently stores `"scheduled"`. -/
theorem c9_omitted_status_resets_witness :
    (getAppointment (putApiAppointmentsId completedDB adminUser 1 singleProcBody 1800000000000).2 1).map
        Appointment.status = some "scheduled" ∧
    ({ schedAppointment with status := "completed" } : Appointment).status = "completed" :=
  ⟨(c9_omitted_status_resets completedDB adminUser 1 singleProcBody 1800000000000
      { schedAppointment with status := "completed" } [barba]
      (by decide) (by decide) (by decide) (by decide) (Or.inl rfl)).1,
    rfl⟩

/-! ### C5 — delete removes children first, then the appointment -/

/-- C5: deleting an existing same-tenant appointment responds 204 and
removes, in order, every financial record referencing it (while the
appointment and its junction rows are still present), then all its junction
rows (while the appointment row is still present), then the appointment row
itself; a subsequent fetch finds nothing and the procedures endpoint
answers 404. -/
theorem c5_delete_order_and_effects (db : DB) (u : User) (id : ℕ) (a : Appointment)
    (hget : getAppointment db id = some a)
    (hco : a.companyId = u.companyId) :
    (deleteApiAppointmentsId db u id).1 = ApiResult.ok 204 () ∧
    getAppointment (deleteFinancialRecordByAppointment db id) id = some a ∧
    (deleteFinancialRecordByAppointment db id).appointmentProcedures
      = db.appointmentProcedures ∧
    (deleteFinancialRecordByAppointment db id).financialRecords
      = db.financialRecords.filter (fun r => r.appointmentId != some id) ∧
    getAppointment
      (removeAllProceduresFromAppointment (deleteFinancialRecordByAppointment db id) id) id
      = some a ∧
    (removeAllProceduresFromAppointment (deleteFinancialRecordByAppointment db id) id).appointmentProcedures
      = db.appointmentProcedures.filter (fun ap => ap.appointmentId != id) ∧
    (deleteApiAppointmentsId db u id).2.financialRecords
      = db.financialRecords.filter (fun r => r.appointmentId != some id) ∧
    (deleteApiAppointmentsId db u id).2.appointmentProcedures
      = db.appointmentProcedures.filter (fun ap => ap.appointmentId != id) ∧
    (deleteApiAppointmentsId db u id).2.appointments
      = db.appointments.filter (fun x => x.id != id) ∧
    getAppointment (deleteApiAppointmentsId db u id).2 id = none ∧
    getApiAppointmentsIdProcedures (deleteApiAppointmentsId db u id).2 u id
      = ApiResult.err 404 "Appointment not found" := by
  have hdel : deleteApiAppointmentsId db u id =
      (ApiResult.ok 204 (),
        { deleteFinancialRecordByAppointment db id with
            appointmentProcedures :=
              db.appointmentProcedures.filter (fun ap => ap.appointmentId != id)
            appointments := db.appointments.filter (fun x => x.id != id) }) := by
    have hfind : List.find? (fun x => x.id == id) db.appointments = some a := hget
    unfold deleteApiAppointmentsId deleteAppointment
    simp [hfind, getAppointment, hco, removeAllProceduresFromAppointment,
      deleteFinancialRecordByAppointment]
  have hnone : getAppointment (deleteApiAppointmentsId db u id).2 id = none := by
    rw [hdel]
    exact find?_filter_ne db.appointments id
  refine ⟨by rw [hdel], hget, rfl, rfl, hget, rfl, by rw [hdel]; rfl, by rw [hdel],
    by rw [hdel], hnone, ?_⟩
  unfold getApiAppointmentsIdProcedures
  rw [hnone]

set_option maxRecDepth 20000 in
/-- C5 witness: deleting appointment 1 (with its financial record and two
junction rows) responds 204, empties all three tables of its rows, and a
re-fetch of its procedures answers 404. -/
theorem c5_delete_order_and_effects_witness :
    (deleteApiAppointmentsId twoProcDB adminUser 1).1 = ApiResult.ok 204 () ∧
    (deleteApiAppointmentsId twoProcDB adminUser 1).2.financialRecords = [] ∧
    (deleteApiAppointmentsId twoProcDB adminUser 1).2.appointmentProcedures = [] ∧
    getAppointment (deleteApiAppointmentsId twoProcDB adminUser 1).2 1 = none ∧
    getApiAppointmentsIdProcedures (deleteApiAppointmentsId twoProcDB adminUser 1).2 adminUser 1
      = ApiResult.err 404 "Appointment not found" := by
  have h := c5_delete_order_and_effects twoProcDB adminUser 1 schedAppointment
    (by decide) (by decide)
  exact ⟨h.1, by rw [h.2.2.2.2.2.2.1]; decide, by rw [h.2.2.2.2.2.2.2.1]; decide,
    h.2.2.2.2.2.2.2.2.2.1, h.2.2.2.2.2.2.2.2.2.2⟩

/-! ### C7 — occupation rate and the dropped window restriction -/

/-- Completed appointment of the collaborator (user 2, tenant 1) dated 100,
outside the [0, 10] window. -/
def outsideWindowAppointment : Appointment :=
  { id := 1, clientId := 1, collaboratorId := 2, procedureId := 1, date := 100,
    status := "completed", companyId := 1, value := 30, notes := none }

/-- Store whose only appointment lies outside the queried window. -/
def windowBugDB : DB :=
  { baseDB with appointments := [outsideWindowAppointment], nextAppointmentId := 2 }

/-- C7 divergence demonstration: tenant 1 has no appointment in the window
[0, 10] (the un-overwritten company-and-window query is empty), and the
admin's request indeed counts 0 and yields occupation 0 as the claim says;
but the collaborator's request does not: its second `.where()` overwrote
the company-and-window condition with the collaborator condition, the
out-of-window completed appointment is fetched and counted, and the
occupation is 100 — not the claimed 0 for a window with 0 appointments. -/
theorem c7_occupation_window_bug :
    getAppointmentsByDateRange windowBugDB 1 0 10 none = [] ∧
    (getApiDashboardStats windowBugDB adminUser 0 10 0 10).appointments = 0 ∧
    (getApiDashboardStats windowBugDB adminUser 0 10 0 10).occupation = 0 ∧
    (getApiDashboardStats windowBugDB collabUser 0 10 0 10).appointments = 1 ∧
    (getApiDashboardStats windowBugDB collabUser 0 10 0 10).occupation = 100 :=
  ⟨by decide, by decide, by decide, by decide, by decide⟩

/-! ### C8 — admin revenue and the dropped company/window restriction -/

/-- Income record of tenant 1 inside the [0, 10] window, value 30. -/
def incomeInWindow : FinancialRecord :=
  { id := 1, type := "income", category := "appointment", description := "a",
    value := 30, date := 5, companyId := 1, appointmentId := none }

/-- Income record of tenant 1 dated 100, outside the window, value 40. -/
def incomeOutOfWindow : FinancialRecord :=
  { id := 2, type := "income", category := "appointment", description := "b",
    value := 40, date := 100, companyId := 1, appointmentId := none }

/-- Income record of tenant 2, value 50. -/
def incomeOtherTenant : FinancialRecord :=
  { id := 3, type := "income", category := "appointment", description := "c",
    value := 50, date := 5, companyId := 2, appointmentId := none }

/-- Store holding the three income records. -/
def revenueBugDB : DB :=
  { baseDB with
      financialRecords := [incomeInWindow, incomeOutOfWindow, incomeOtherTenant]
      nextFrId := 4 }

/-- C8 divergence demonstration: tenant 1's income records inside the
[0, 10] window are exactly the value-30 record, yet the admin's revenue is
120 — the type argument `"income"` is always truthy, so the revenue
query's second `.where()` overwrote the company-and-window condition and
the handler sums every income record of every tenant and date, including
the out-of-window record and the other tenant's.  (The non-admin branch
still returns revenue 0: the admin guard sits in the handler itself.) -/
theorem c8_revenue_leak_bug :
    (revenueBugDB.financialRecords.filter (fun r =>
        (r.companyId == 1 && decide ((0:ℤ) ≤ r.date) && decide (r.date ≤ (10:ℤ)))
          && r.type == "income"))
      = [incomeInWindow] ∧
    jsSumRecordValues [incomeInWindow] = 30 ∧
    (getApiDashboardStats revenueBugDB adminUser 0 10 0 10).revenue
      = jsSumRecordValues [incomeInWindow, incomeOutOfWindow, incomeOtherTenant] ∧
    (getApiDashboardStats revenueBugDB adminUser 0 10 0 10).revenue = 120 ∧
    (getApiDashboardStats revenueBugDB adminUser 0 10 0 10).revenue
      ≠ jsSumRecordValues [incomeInWindow] ∧
    (getApiDashboardStats revenueBugDB collabUser 0 10 0 10).revenue = 0 :=
  ⟨by decide, by decide, by decide, by decide, by decide, by decide⟩

/-! ### C10 — by-appointment variants are total multi-row operations -/

/-- C10: `updateFinancialRecordByAppointment` rewrites every record whose
`appointmentId` matches (and no other), `deleteFinancialRecordByAppointment`
removes every matching record; both are total (no failure path) and act as
no-ops on a store with no matching record.  The by-id variants
`updateFinancialRecord`/`deleteFinancialRecord` instead fail with an error
when the row is absent. -/
theorem c10_by_appointment_vs_by_id :
    (∀ (db : DB) (aid : ℕ) (upd : FinancialRecordUpdates) (r : FinancialRecord),
      r ∈ db.financialRecords → r.appointmentId = some aid →
      applyFrUpdates r upd ∈ (updateFinancialRecordByAppointment db aid upd).financialRecords) ∧
    (∀ (db : DB) (aid : ℕ) (upd : FinancialRecordUpdates) (r : FinancialRecord),
      r ∈ db.financialRecords → r.appointmentId ≠ some aid →
      r ∈ (updateFinancialRecordByAppointment db aid upd).financialRecords) ∧
    (∀ (db : DB) (aid : ℕ),
      ((deleteFinancialRecordByAppointment db aid).financialRecords.filter
        (fun r => r.appointmentId == some aid)) = []) ∧
    (∀ (db : DB) (aid : ℕ) (upd : FinancialRecordUpdates),
      (∀ r ∈ db.financialRecords, r.appointmentId ≠ some aid) →
      updateFinancialRecordByAppointment db aid upd = db ∧
      deleteFinancialRecordByAppointment db aid = db) ∧
    (∀ (db : DB) (id : ℕ) (upd : FinancialRecordUpdates),
      db.financialRecords.find? (fun r => r.id == id) = none →
      updateFinancialRecord db id upd
        = Except.error ("Financial record with ID " ++ toString id ++ " not found") ∧
      deleteFinancialRecord db id
        = Except.error ("Financial record with ID " ++ toString id ++ " not found")) := by
  refine ⟨?_, ?_, ?_, ?_, ?_⟩
  · intro db aid upd r hr hmatch
    have := List.mem_map_of_mem
      (fun r => if r.appointmentId == some aid then applyFrUpdates r upd else r) hr
    simpa [updateFinancialRecordByAppointment, hmatch] using this
  · intro db aid upd r hr hmatch
    have := List.mem_map_of_mem
      (fun r => if r.appointmentId == some aid then applyFrUpdates r upd else r) hr
    simpa [updateFinancialRecordByAppointment, hmatch] using this
  · intro db aid
    simp [deleteFinancialRecordByAppointment, List.filter_filter, bne]
  · intro db aid upd hnone
    constructor
    · unfold updateFinancialRecordByAppointment
      rw [List.map_congr_left (fun r hr => if_neg (by simpa using hnone r hr)), List.map_id']
    · unfold deleteFinancialRecordByAppointment
      rw [List.filter_eq_self.mpr (fun r hr => by simpa using hnone r hr)]
  · intro db id upd hfind
    unfold updateFinancialRecord deleteFinancialRecord
    rw [hfind]
    exact ⟨rfl, rfl⟩

/-- Two income records both referencing appointment 5, plus one unrelated
record. -/
def multiFrDB : DB :=
  { baseDB with
      financialRecords :=
        [{ id := 1, type := "income", category := "appointment", description := "a",
           value := 10, date := 0, companyId := 1, appointmentId := some 5 },
         { id := 2, type := "income", category := "appointment", description := "b",
           value := 20, date := 0, companyId := 1, appointmentId := some 5 },
         { id := 3, type := "expense", category := "fixed_cost", description := "c",
           value := 5, date := 0, companyId := 1, appointmentId := none }]
      nextFrId := 4 }

/-- C10 witness: both records of appointment 5 are rewritten (the
unrelated one kept), the delete removes both matches, the no-match update
and delete leave the empty-store state unchanged, and the by-id variants
error on the absent id 9. -/
theorem c10_by_appointment_vs_by_id_witness :
    ({ multiFrDB.financialRecords.get! 0 with value := 99, date := 7 }
      ∈ (updateFinancialRecordByAppointment multiFrDB 5
          { value := some 99, date := some 7 }).financialRecords) ∧
    ({ multiFrDB.financialRecords.get! 1 with value := 99, date := 7 }
      ∈ (updateFinancialRecordByAppointment multiFrDB 5
          { value := some 99, date := some 7 }).financialRecords) ∧
    (multiFrDB.financialRecords.get! 2
      ∈ (updateFinancialRecordByAppointment multiFrDB 5
          { value := some 99, date := some 7 }).financialRecords) ∧
    ((deleteFinancialRecordByAppointment multiFrDB 5).financialRecords.filter
        (fun r => r.appointmentId == some 5)) = [] ∧
    updateFinancialRecordByAppointment baseDB 5 { value := some 99, date := some 7 }
      = baseDB ∧
    deleteFinancialRecordByAppointment baseDB 5 = baseDB ∧
    updateFinancialRecord multiFrDB 9 { value := some 99, date := some 7 }
      = Except.error "Financial record with ID 9 not found" ∧
    deleteFinancialRecord multiFrDB 9
      = Except.error "Financial record with ID 9 not found" := by
  have hupd := c10_by_appointment_vs_by_id.1
  have hmiss := c10_by_appointment_vs_by_id.2.2.2.1 baseDB 5
    { value := some 99, date := some 7 } (by decide)
  have hbyid := c10_by_appointment_vs_by_id.2.2.2.2 multiFrDB 9
    { value := some 99, date := some 7 } (by decide)
  refine ⟨?_, ?_,
    c10_by_appointment_vs_by_id.2.1 multiFrDB 5 { value := some 99, date := some 7 }
      (multiFrDB.financialRecords.get! 2) (by decide) (by decide),
    c10_by_appointment_vs_by_id.2.2.1 multiFrDB 5,
    hmiss.1, hmiss.2, hbyid.1, hbyid.2⟩
  · exact hupd multiFrDB 5 { value := some 99, date := some 7 }
      (multiFrDB.financialRecords.get! 0) (by decide) (by decide)
  · exact hupd multiFrDB 5 { value := some 99, date := some 7 }
      (multiFrDB.financialRecords.get! 1) (by decide) (by decide)

end Beauty
